import Mathlib

/-!
Shallow embedding of `src/server.py` (a minimal HTTPS static-file server
built on Python's `http.server`), and proofs about its specified behavior.

The file models:
  * the header-buffer discipline of `BaseHTTPRequestHandler.send_header` /
    `end_headers` / `flush_headers`, and the `CORSHTTPServer.end_headers`
    override from `src/server.py` lines 8-12;
  * the base static-file responder (`SimpleHTTPRequestHandler`), which is
    standard-library code not present under `src/`, modelled from the spec;
  * the `run()` startup sequence of `src/server.py` lines 14-22 as an
    explicit event trace, and the `serve_forever` loop.
-/

/-- An HTTP response header line: a name / value pair. -/
structure Header where
  name : String
  value : String
deriving DecidableEq, Repr

/-- The three headers injected by `CORSHTTPServer.end_headers`
(`src/server.py` lines 9-11), in source order. -/
def injectedHeaders : List Header :=
  [⟨"Access-Control-Allow-Origin", "*"⟩,
   ⟨"Cross-Origin-Opener-Policy", "same-origin"⟩,
   ⟨"Cross-Origin-Embedder-Policy", "require-corp"⟩]

/-- State of the handler's header machinery: `buffer` models Python's
`_headers_buffer` (header lines queued but not yet written), `wire` the
header lines already flushed to the client, `terminated` whether the blank
line ending the header block has been written. -/
structure HandlerState where
  buffer : List Header
  wire : List Header
  terminated : Bool
deriving DecidableEq, Repr

/-- Handler state at the start of a response: nothing buffered or written. -/
def initHandler : HandlerState := ⟨[], [], false⟩

/-- Model of `BaseHTTPRequestHandler.send_header`: appends one header line
to `_headers_buffer`. It never overwrites an existing line. -/
def send_header (s : HandlerState) (h : Header) : HandlerState :=
  { s with buffer := s.buffer ++ [h] }

/-- Sends a list of headers in order via `send_header`. -/
def sendAll (s : HandlerState) (hs : List Header) : HandlerState :=
  hs.foldl send_header s

/-- Model of `BaseHTTPRequestHandler.flush_headers`: writes the buffered
header lines to the wire and empties the buffer. -/
def flush_headers (s : HandlerState) : HandlerState :=
  { s with wire := s.wire ++ s.buffer, buffer := [] }

/-- Model of the base class's `end_headers`: appends the blank line that
terminates the header block and flushes the buffer. Header lines sent after
this point are no longer part of the response's header block. -/
def base_end_headers (s : HandlerState) : HandlerState :=
  flush_headers { s with terminated := true }

/-- Model of `CORSHTTPServer.end_headers` (`src/server.py` lines 8-12):
sends the three injected headers, then calls the base `end_headers`. -/
def cors_end_headers (s : HandlerState) : HandlerState :=
  base_end_headers (send_header (send_header (send_header s
    ⟨"Access-Control-Allow-Origin", "*"⟩)
    ⟨"Cross-Origin-Opener-Policy", "same-origin"⟩)
    ⟨"Cross-Origin-Embedder-Policy", "require-corp"⟩)

/-- The call order the spec describes for C2: invoke the base
header-finalization routine first, then add the three own headers. This is
written from the spec's words, to be compared with `cors_end_headers`,
which is written from the source. -/
def specOrderEndHeaders (s : HandlerState) : HandlerState :=
  sendAll (base_end_headers s) injectedHeaders

/-- The header machinery run for one full response: the base handler sends
its header lines `hs` via `send_header`, then calls `end_headers`, which
dynamic dispatch resolves to the `CORSHTTPServer` override. -/
def corsHeaderBlock (hs : List Header) : HandlerState :=
  cors_end_headers (sendAll initHandler hs)

/-- A filesystem entry as seen through the served root: a regular file with
byte contents and a readability flag, a directory, or nothing. -/
inductive FSEntry where
  | file (contents : List Nat) (readable : Bool)
  | dir
  | missing
deriving DecidableEq, Repr

/-- An HTTP request after TLS decryption and parsing: method, path, request
headers and request body. -/
structure Request where
  method : String
  path : String
  reqHeaders : List Header
  reqBody : List Nat
deriving DecidableEq, Repr

/-- An HTTP response: status code, header block lines in wire order, body
bytes. -/
structure Response where
  status : Nat
  headers : List Header
  body : List Nat
deriving DecidableEq, Repr

/-- Bytes of an ASCII string, used for modelled bodies. -/
def strBytes (s : String) : List Nat := s.toList.map Char.toNat

/-- Modelled from the spec: content type inferred from the path's
extension ("200 with file contents and a content type inferred from
extension"). -/
def guessContentType (p : String) : String :=
  if p.endsWith ".html" then "text/html" else "application/octet-stream"

/-- Modelled from the spec: the header lines the base library sets itself
for a response (server identification, date, content type and length);
none of them is one of the three injected header names. -/
def baseHeadersFor (contentType : String) (contentLength : Nat) : List Header :=
  [⟨"Server", "SimpleHTTP PythonStdlib"⟩,
   ⟨"Date", "response-date"⟩,
   ⟨"Content-type", contentType⟩,
   ⟨"Content-Length", toString contentLength⟩]

/-- Modelled from the spec: the base static-file behavior of Python's
`SimpleHTTPRequestHandler`, which is standard-library code not under
`src/`. Per spec section 4.2: 200 with the file's contents when the
resolved path names a readable regular file, an HTML directory listing
when it names a directory, 404 when nothing matches, 403 for permission
errors. Only the request path is consulted; the request body is never read
or interpreted. -/
def baseRespond (fs : String → FSEntry) (req : Request) : Response :=
  match fs req.path with
  | .file contents true =>
      { status := 200,
        headers := baseHeadersFor (guessContentType req.path) contents.length,
        body := contents }
  | .file _ false =>
      { status := 403,
        headers := baseHeadersFor "text/html" (strBytes "403 Forbidden").length,
        body := strBytes "403 Forbidden" }
  | .dir =>
      { status := 200,
        headers := baseHeadersFor "text/html"
          (strBytes ("Directory listing for " ++ req.path)).length,
        body := strBytes ("Directory listing for " ++ req.path) }
  | .missing =>
      { status := 404,
        headers := baseHeadersFor "text/html" (strBytes "404 Not Found").length,
        body := strBytes "404 Not Found" }

/-- The response produced by `CORSHTTPServer`: the base responder's status
and body, with the header block produced by running the header machinery —
the base handler's `send_header` calls followed by the overridden
`end_headers`. -/
def corsRespond (fs : String → FSEntry) (req : Request) : Response :=
  { status := (baseRespond fs req).status,
    headers := (corsHeaderBlock (baseRespond fs req).headers).wire,
    body := (baseRespond fs req).body }

/-- Startup failures of `run()`: the listening socket cannot be bound, or a
certificate / key file cannot be opened. -/
inductive StartupErr where
  | addrInUse (port : Nat)
  | fileNotFound (path : String)
deriving DecidableEq, Repr

/-- Outcome of `run()`: an uncaught startup exception, or entering the
serving loop (which never returns). -/
inductive RunOutcome where
  | err (e : StartupErr)
  | serving
deriving DecidableEq, Repr

/-- State of the server's TCP socket when `run()` stops executing straight
line code (raises or enters `serve_forever`). -/
inductive SocketState where
  | unbound
  | listening
deriving DecidableEq, Repr

/-- The observable actions `run()` performs, in order:
`HTTPServer(server_address, handler_class)` binds and listens,
`load_cert_chain` opens the certificate and key files, `wrap_socket` wraps
the bound socket in TLS, `serve_forever` starts the accept loop. -/
inductive RunEvent where
  | bindAndListen (port : Nat)
  | loadCertChain (cert : String) (key : String)
  | wrapSocket
  | serveForever
deriving DecidableEq, Repr

/-- Environment `run()` executes in: whether the port can be bound and
whether the certificate and key files exist and are readable. -/
structure TLSEnv where
  portFree : Bool
  certReadable : Bool
  keyReadable : Bool
deriving DecidableEq, Repr

/-- Result of executing `run()`: the trace of actions attempted, the
outcome, and the socket's state at that point. -/
structure RunResult where
  events : List RunEvent
  outcome : RunOutcome
  socket : SocketState
deriving DecidableEq, Repr

/-- Model of `run()` (`src/server.py` lines 14-22). The statement order of
the source is kept: `HTTPServer(...)` binds and listens first; only then
does `load_cert_chain('cert.pem', 'key.pem')` touch the certificate and
key files; then the socket is wrapped and `serve_forever()` is entered. An
exception at any step propagates out, leaving the earlier steps' effects
in place. -/
def run (env : TLSEnv) (port : Nat) : RunResult :=
  if env.portFree = false then
    { events := [.bindAndListen port],
      outcome := .err (.addrInUse port),
      socket := .unbound }
  else if env.certReadable = false then
    { events := [.bindAndListen port, .loadCertChain "cert.pem" "key.pem"],
      outcome := .err (.fileNotFound "cert.pem"),
      socket := .listening }
  else if env.keyReadable = false then
    { events := [.bindAndListen port, .loadCertChain "cert.pem" "key.pem"],
      outcome := .err (.fileNotFound "key.pem"),
      socket := .listening }
  else
    { events := [.bindAndListen port, .loadCertChain "cert.pem" "key.pem",
                 .wrapSocket, .serveForever],
      outcome := .serving,
      socket := .listening }

/-- The process-wide configuration values of spec section 3. -/
structure Config where
  port : Nat
  certPath : String
  keyPath : String
  root : String
deriving DecidableEq, Repr

/-- The configuration the `__main__` entry point fixes: `run()` is called
with its default port 8080 (`src/server.py` line 14), the certificate and
key paths are the literals of line 19, and the served root is the
process's working directory. The source parses no command-line arguments
and reads no environment variables, so `argv` and `osEnv` are not
consulted. -/
def mainConfig (argv : List String) (osEnv : String → Option String)
    (cwd : String) : Config :=
  { port := 8080, certPath := "cert.pem", keyPath := "key.pem", root := cwd }

/-- Model of the `if __name__ == "__main__": run()` entry point
(`src/server.py` lines 24-25): `run()` with all defaults, ignoring `argv`
and the process environment. -/
def pyMain (argv : List String) (osEnv : String → Option String)
    (env : TLSEnv) : RunResult :=
  run env 8080

/-- State of the `serve_forever` accept loop: Python's
`__shutdown_request` flag and the number of connections handled so far. -/
structure LoopState where
  shutdownRequest : Bool
  handled : Nat
deriving DecidableEq, Repr

/-- Loop state on entry to `serve_forever`. -/
def initLoop : LoopState := ⟨false, 0⟩

/-- One iteration of the `serve_forever` loop: exit if shutdown was
requested, otherwise handle one more connection. Nothing in `run()` ever
requests shutdown. -/
def serveStep (s : LoopState) : LoopState :=
  if s.shutdownRequest then s else { s with handled := s.handled + 1 }

/-- The loop state after `n` iterations of `serve_forever`. -/
def serveLoop : Nat → LoopState
  | 0 => initLoop
  | n + 1 => serveStep (serveLoop n)

/-! ## Helper lemmas -/

/-- Sending a list of headers appends it to the buffer and changes nothing
else. -/
theorem sendAll_eq (hs : List Header) : ∀ s : HandlerState,
    sendAll s hs = { s with buffer := s.buffer ++ hs } := by
  induction hs with
  | nil => intro s; simp [sendAll]
  | cons h t ih =>
      intro s
      have : sendAll s (h :: t) = sendAll (send_header s h) t := rfl
      rw [this, ih (send_header s h)]
      simp [send_header]

/-- The wire header block of a full response is the base handler's header
lines followed by the three injected headers, and the block is terminated. -/
theorem corsHeaderBlock_eq (hs : List Header) :
    corsHeaderBlock hs = ⟨[], hs ++ injectedHeaders, true⟩ := by
  simp [corsHeaderBlock, cors_end_headers, base_end_headers, flush_headers,
    send_header, sendAll_eq, initHandler, injectedHeaders]

/-- The headers of a `corsRespond` response are the base handler's headers
followed by the injected three. -/
theorem corsRespond_headers (fs : String → FSEntry) (req : Request) :
    (corsRespond fs req).headers = (baseRespond fs req).headers ++ injectedHeaders := by
  simp [corsRespond, corsHeaderBlock_eq]

/-- The base responder's header names are the same fixed four for every
branch, none of them an injected name. -/
theorem baseRespond_header_names (fs : String → FSEntry) (req : Request) :
    (baseRespond fs req).headers.map Header.name =
      ["Server", "Date", "Content-type", "Content-Length"] := by
  unfold baseRespond
  cases h : fs req.path with
  | file contents readable => cases readable <;> simp [baseHeadersFor]
  | dir => simp [baseHeadersFor]
  | missing => simp [baseHeadersFor]

/-- Status and body of a `corsRespond` response agree with the base
responder's. -/
theorem corsRespond_status_body (fs : String → FSEntry) (req : Request) :
    (corsRespond fs req).status = (baseRespond fs req).status ∧
    (corsRespond fs req).body = (baseRespond fs req).body := by
  constructor <;> rfl

/-! ## Claim C1 -/

/-- C1: for every response the server produces, regardless of request path,
request method, or response status code, the response carries each of the
three injected headers exactly once with exactly these values:
`Access-Control-Allow-Origin: *`, `Cross-Origin-Opener-Policy: same-origin`,
`Cross-Origin-Embedder-Policy: require-corp`. -/
theorem C1_injected_headers_exactly_once (fs : String → FSEntry) (req : Request) :
    (((corsRespond fs req).headers.map Header.name).count
        "Access-Control-Allow-Origin" = 1 ∧
      Header.mk "Access-Control-Allow-Origin" "*" ∈ (corsRespond fs req).headers) ∧
    (((corsRespond fs req).headers.map Header.name).count
        "Cross-Origin-Opener-Policy" = 1 ∧
      Header.mk "Cross-Origin-Opener-Policy" "same-origin" ∈ (corsRespond fs req).headers) ∧
    (((corsRespond fs req).headers.map Header.name).count
        "Cross-Origin-Embedder-Policy" = 1 ∧
      Header.mk "Cross-Origin-Embedder-Policy" "require-corp" ∈ (corsRespond fs req).headers) := by
  have hmap : (corsRespond fs req).headers.map Header.name =
      ["Server", "Date", "Content-type", "Content-Length",
       "Access-Control-Allow-Origin", "Cross-Origin-Opener-Policy",
       "Cross-Origin-Embedder-Policy"] := by
    rw [corsRespond_headers, List.map_append, baseRespond_header_names]
    rfl
  have hmem : ∀ h ∈ injectedHeaders, h ∈ (corsRespond fs req).headers := by
    intro h hh
    rw [corsRespond_headers]
    exact List.mem_append_right _ hh
  refine ⟨⟨?_, ?_⟩, ⟨?_, ?_⟩, ⟨?_, ?_⟩⟩
  · rw [hmap]; decide
  · exact hmem _ (by simp [injectedHeaders])
  · rw [hmap]; decide
  · exact hmem _ (by simp [injectedHeaders])
  · rw [hmap]; decide
  · exact hmem _ (by simp [injectedHeaders])

/-! ## Claim C2 -/

/-- A header buffer as it stands after the base handler has sent one of its
own header lines; used as the concrete input of the C2 counterexample. -/
def oneBaseHeaderState : HandlerState :=
  send_header initHandler ⟨"Content-type", "text/html"⟩

/-- C2 counterexample: the claim says the appended-last placement "is
achieved by the override invoking the base header-finalization routine
first and then adding its own headers". The source's `end_headers`
(`cors_end_headers`) does the opposite, and the two orders are not
interchangeable: run from a state holding one base header line, the
claimed order leaves the three injected headers stuck in the buffer after
the header block is already terminated, so they never reach the wire. -/
theorem C2_counterexample :
    cors_end_headers oneBaseHeaderState ≠ specOrderEndHeaders oneBaseHeaderState ∧
    (specOrderEndHeaders oneBaseHeaderState).wire =
      [⟨"Content-type", "text/html"⟩] := by
  constructor
  · decide
  · decide

/-- C2 amended: for every response, the three injected headers are appended
after all headers set by the base file-serving handler, without overwriting
an existing header of the same name; this is achieved by the override
adding its own headers to the still-open buffer first and then invoking the
base header-finalization routine, which flushes the buffered base headers
followed by the injected ones. -/
theorem C2_amended_append_after_base (hs : List Header) :
    (corsHeaderBlock hs).wire = hs ++ injectedHeaders ∧
    (corsHeaderBlock hs).terminated = true ∧
    ∀ s : HandlerState,
      cors_end_headers s = base_end_headers (sendAll s injectedHeaders) := by
  refine ⟨?_, ?_, ?_⟩
  · rw [corsHeaderBlock_eq]
  · rw [corsHeaderBlock_eq]
  · intro s
    simp [cors_end_headers, sendAll_eq, send_header, injectedHeaders]

/-! ## Claim C3 -/

/-- Environment in which the port is free but `cert.pem` is missing. -/
def certMissingEnv : TLSEnv := ⟨true, false, true⟩

/-- C3 counterexample: with the port free and `cert.pem` missing, `run`
does raise the startup error, but the claim's "the process does not begin
listening on the port" is false: `HTTPServer(server_address,
handler_class)` has already bound and activated the socket, so it is in
the listening state when the error is raised. -/
theorem C3_counterexample :
    (run certMissingEnv 8080).outcome =
      RunOutcome.err (StartupErr.fileNotFound "cert.pem") ∧
    (run certMissingEnv 8080).socket = SocketState.listening := by
  constructor <;> rfl

/-- C3 amended: if the port can be bound and the certificate file
`cert.pem` (or the key file `key.pem`) is missing when `run()` starts,
`run()` raises a fatal startup error naming the first missing file before
serving begins (`serve_forever` is never entered), but the process has
already bound the port and begun listening when the error is raised. The
port condition is needed: with the port also busy, the bind itself fails
first and the socket is closed, not listening. -/
theorem C3_amended_error_before_serving (env : TLSEnv) (port : Nat)
    (h1 : env.portFree = true)
    (h2 : env.certReadable = false ∨ env.keyReadable = false) :
    (run env port).outcome = RunOutcome.err (StartupErr.fileNotFound
      (if env.certReadable = false then "cert.pem" else "key.pem")) ∧
    RunEvent.serveForever ∉ (run env port).events ∧
    (run env port).socket = SocketState.listening := by
  rcases env with ⟨pf, cr, kr⟩
  cases pf <;> cases cr <;> cases kr <;> simp_all [run]

/-- Witness for C3's amended theorem at the concrete environment with a
missing certificate. -/
theorem C3_amended_witness :
    (run certMissingEnv 8080).outcome = RunOutcome.err (StartupErr.fileNotFound
      (if certMissingEnv.certReadable = false then "cert.pem" else "key.pem")) ∧
    RunEvent.serveForever ∉ (run certMissingEnv 8080).events ∧
    (run certMissingEnv 8080).socket = SocketState.listening :=
  C3_amended_error_before_serving certMissingEnv 8080 rfl (Or.inl rfl)

/-! ## Claim C4 -/

/-- Body of the demonstration file served in witnesses. -/
def demoIndexBody : List Nat := strBytes "<h1>hi</h1>"

/-- Demonstration filesystem: the served root holds exactly one readable
file `/index.html`. -/
def demoFS : String → FSEntry := fun p =>
  if p = "/index.html" then .file demoIndexBody true else .missing

/-- A GET request for the existing demonstration file. -/
def demoGetIndex : Request := ⟨"GET", "/index.html", [], []⟩

/-- A GET request for a path nothing matches. -/
def demoGetMissing : Request := ⟨"GET", "/missing.txt", [], []⟩

/-- C4: for every request whose path resolves to an existing readable
regular file under the served root, the response status is 200 and the
response body equals that file's exact byte content. -/
theorem C4_existing_file_200 (fs : String → FSEntry) (req : Request)
    (contents : List Nat) (h : fs req.path = FSEntry.file contents true) :
    (corsRespond fs req).status = 200 ∧ (corsRespond fs req).body = contents := by
  constructor
  · show (baseRespond fs req).status = 200
    simp [baseRespond, h]
  · show (baseRespond fs req).body = contents
    simp [baseRespond, h]

/-- Witness for C4 at the demonstration filesystem and request. -/
theorem C4_witness :
    (corsRespond demoFS demoGetIndex).status = 200 ∧
    (corsRespond demoFS demoGetIndex).body = demoIndexBody :=
  C4_existing_file_200 demoFS demoGetIndex demoIndexBody (by decide)

/-! ## Claim C5 -/

/-- C5: for every request whose path matches no existing file or directory
under the served root, the response status is 404, and that 404 response
still carries all three injected headers. -/
theorem C5_missing_path_404 (fs : String → FSEntry) (req : Request)
    (h : fs req.path = FSEntry.missing) :
    (corsRespond fs req).status = 404 ∧
    Header.mk "Access-Control-Allow-Origin" "*" ∈ (corsRespond fs req).headers ∧
    Header.mk "Cross-Origin-Opener-Policy" "same-origin" ∈ (corsRespond fs req).headers ∧
    Header.mk "Cross-Origin-Embedder-Policy" "require-corp" ∈ (corsRespond fs req).headers := by
  refine ⟨?_, ?_, ?_, ?_⟩
  · show (baseRespond fs req).status = 404
    simp [baseRespond, h]
  all_goals
    rw [corsRespond_headers]
    exact List.mem_append_right _ (by simp [injectedHeaders])

/-- Witness for C5 at the demonstration filesystem and a missing path. -/
theorem C5_witness :
    (corsRespond demoFS demoGetMissing).status = 404 ∧
    Header.mk "Access-Control-Allow-Origin" "*" ∈ (corsRespond demoFS demoGetMissing).headers ∧
    Header.mk "Cross-Origin-Opener-Policy" "same-origin" ∈ (corsRespond demoFS demoGetMissing).headers ∧
    Header.mk "Cross-Origin-Embedder-Policy" "require-corp" ∈ (corsRespond demoFS demoGetMissing).headers :=
  C5_missing_path_404 demoFS demoGetMissing (by decide)

/-! ## Claim C6 -/

/-- C6: the listen port (8080), certificate path (`cert.pem`), key path
(`key.pem`), and served root (the process's current working directory) are
fixed construction-time constants of this version: no command-line flags or
environment variables can change them, and the startup trace uses exactly
these values. -/
theorem C6_fixed_configuration (a1 a2 : List String)
    (e1 e2 : String → Option String) (cwd : String) (env : TLSEnv) :
    mainConfig a1 e1 cwd = Config.mk 8080 "cert.pem" "key.pem" cwd ∧
    mainConfig a1 e1 cwd = mainConfig a2 e2 cwd ∧
    pyMain a1 e1 env = pyMain a2 e2 env ∧
    (pyMain a1 e1 env).events.head? = some (RunEvent.bindAndListen 8080) ∧
    (env.portFree = true →
      RunEvent.loadCertChain "cert.pem" "key.pem" ∈ (pyMain a1 e1 env).events) := by
  refine ⟨rfl, rfl, rfl, ?_, ?_⟩
  · rcases env with ⟨pf, cr, kr⟩
    cases pf <;> cases cr <;> cases kr <;> rfl
  · intro hp
    rcases env with ⟨pf, cr, kr⟩
    simp only at hp
    subst hp
    cases cr <;> cases kr <;> simp [pyMain, run]

/-- Witness for C6: at a concrete invocation the configuration is the fixed
record and the startup trace loads exactly `cert.pem` and `key.pem`. -/
theorem C6_witness :
    mainConfig [] (fun _ => none) "/srv" = Config.mk 8080 "cert.pem" "key.pem" "/srv" ∧
    RunEvent.loadCertChain "cert.pem" "key.pem" ∈
      (pyMain [] (fun _ => none) ⟨true, true, true⟩).events :=
  ⟨(C6_fixed_configuration [] [] (fun _ => none) (fun _ => none) "/srv"
      ⟨true, true, true⟩).1,
   (C6_fixed_configuration [] [] (fun _ => none) (fun _ => none) "/srv"
      ⟨true, true, true⟩).2.2.2.2 rfl⟩

/-! ## Claim C7 -/

/-- C7: for every request, the handler's behavior is identical to the base
static-file handler's behavior — same status, same body, the dispatch on
the request unchanged — differing only in the three appended response
headers; and no request body or request header is read or interpreted:
changing either leaves the response untouched. -/
theorem C7_refines_base_handler (fs : String → FSEntry) (req : Request) :
    (corsRespond fs req).status = (baseRespond fs req).status ∧
    (corsRespond fs req).body = (baseRespond fs req).body ∧
    (corsRespond fs req).headers = (baseRespond fs req).headers ++ injectedHeaders ∧
    (∀ b : List Nat, corsRespond fs { req with reqBody := b } = corsRespond fs req) ∧
    (∀ hs : List Header, corsRespond fs { req with reqHeaders := hs } = corsRespond fs req) := by
  refine ⟨rfl, rfl, corsRespond_headers fs req, ?_, ?_⟩
  · intro b; rfl
  · intro hs; rfl

/-! ## Claim C8 -/

/-- C8: after successful startup, `run()` never returns normally: it enters
`serve_forever`, and after any number `n` of loop iterations the shutdown
flag is still unset (the loop cannot exit) while `n` connections have been
handled — an unbounded sequence of connections. -/
theorem C8_serve_forever_never_returns (env : TLSEnv)
    (h1 : env.portFree = true) (h2 : env.certReadable = true)
    (h3 : env.keyReadable = true) :
    (run env 8080).outcome = RunOutcome.serving ∧
    RunEvent.serveForever ∈ (run env 8080).events ∧
    ∀ n : Nat, (serveLoop n).shutdownRequest = false ∧ (serveLoop n).handled = n := by
  refine ⟨?_, ?_, ?_⟩
  · simp [run, h1, h2, h3]
  · simp [run, h1, h2, h3]
  · intro n
    induction n with
    | zero => exact ⟨rfl, rfl⟩
    | succ k ih =>
        refine ⟨?_, ?_⟩
        · simp [serveLoop, serveStep, ih.1]
        · simp [serveLoop, serveStep, ih.1, ih.2]

/-- Witness for C8 at the all-good environment and five loop iterations. -/
theorem C8_witness :
    (run ⟨true, true, true⟩ 8080).outcome = RunOutcome.serving ∧
    (serveLoop 5).shutdownRequest = false ∧ (serveLoop 5).handled = 5 :=
  ⟨(C8_serve_forever_never_returns ⟨true, true, true⟩ rfl rfl rfl).1,
   ((C8_serve_forever_never_returns ⟨true, true, true⟩ rfl rfl rfl).2.2 5).1,
   ((C8_serve_forever_never_returns ⟨true, true, true⟩ rfl rfl rfl).2.2 5).2⟩

/-! ## Claim C9 -/

/-- C9: in `run()`, the TCP socket is bound and listening before the
certificate and key files are loaded: the first event of every trace is
the bind, a port-in-use failure is raised without any certificate access,
and a missing certificate raises its error while the already-bound socket
is left in the listening state. -/
theorem C9_bind_before_cert_load (env : TLSEnv) (port : Nat) :
    (run env port).events.head? = some (RunEvent.bindAndListen port) ∧
    (env.portFree = false →
      (run env port).outcome = RunOutcome.err (StartupErr.addrInUse port) ∧
      RunEvent.loadCertChain "cert.pem" "key.pem" ∉ (run env port).events) ∧
    (env.portFree = true → env.certReadable = false →
      (run env port).outcome = RunOutcome.err (StartupErr.fileNotFound "cert.pem") ∧
      (run env port).socket = SocketState.listening) := by
  refine ⟨?_, ?_, ?_⟩
  · rcases env with ⟨pf, cr, kr⟩
    cases pf <;> cases cr <;> cases kr <;> rfl
  · intro hp
    simp [run, hp]
  · intro hp hc
    simp [run, hp, hc]

/-- Witness for C9 at the missing-certificate environment. -/
theorem C9_witness :
    (run certMissingEnv 8080).events.head? = some (RunEvent.bindAndListen 8080) ∧
    (run certMissingEnv 8080).outcome = RunOutcome.err (StartupErr.fileNotFound "cert.pem") ∧
    (run certMissingEnv 8080).socket = SocketState.listening :=
  ⟨(C9_bind_before_cert_load certMissingEnv 8080).1,
   ((C9_bind_before_cert_load certMissingEnv 8080).2.2 rfl rfl).1,
   ((C9_bind_before_cert_load certMissingEnv 8080).2.2 rfl rfl).2⟩

/-! ## Claim C10 -/

/-- C10: in every response, the three injected headers are the final header
lines, in the fixed order `Access-Control-Allow-Origin`,
`Cross-Origin-Opener-Policy`, `Cross-Origin-Embedder-Policy`; the header
lines added by `end_headers` are the same for any two requests, independent
of path, method, or status. -/
theorem C10_constant_final_header_lines (fs : String → FSEntry) (req : Request)
    (fs2 : String → FSEntry) (req2 : Request) :
    (corsRespond fs req).headers =
      (baseRespond fs req).headers ++ injectedHeaders ∧
    (corsRespond fs req).headers.drop
      ((corsRespond fs req).headers.length - 3) = injectedHeaders ∧
    (corsRespond fs req).headers.drop (baseRespond fs req).headers.length =
      (corsRespond fs2 req2).headers.drop (baseRespond fs2 req2).headers.length := by
  have h1 := corsRespond_headers fs req
  have h2 := corsRespond_headers fs2 req2
  refine ⟨h1, ?_, ?_⟩
  · rw [h1]
    have hlen : ((baseRespond fs req).headers ++ injectedHeaders).length - 3 =
        (baseRespond fs req).headers.length := by
      simp [injectedHeaders]
    rw [hlen, List.drop_left]
  · rw [h1, h2, List.drop_left, List.drop_left]
